import Mathlib

/-!
Shallow embedding of the MX_Local_DNS repository's core subsystems:

* `MerakiApiUtils` — the `MerakiAPIWrapper` class of
  `src/meraki_tools/meraki_api_utils.py` (credential & scope state,
  parameter-ordering checks, `setup_application_parameters`, and the
  organization/network caching layer).
* `LocalDnsLogic` — the module-level functions of `src/local_dns_logic.py`
  (the generic `make_request` REST layer and the domain operations).
* `ProjectLogic` — the `ProjectLogic` class of `src/project_logic.py`.

Python conventions used throughout the embedding:

* An optional string value is `Option String`; Python truthiness of such a
  value (`if x:`) is `truthy`, which is `false` for `None` and for `""`.
* A Python `dict` built by insertion/overwrite is a `List (String × α)` in
  insertion order; lookup takes the LAST binding of a key (`pyGetLast`),
  matching Python's overwrite-on-reinsert semantics, and `pyDictSet`
  appends a binding.
* External effects (the HTTP transport, the Meraki SDK fetches, the
  `MK_CSM_KEY` environment variable) are passed in as explicit arguments;
  the functions return their result together with the updated state.
-/

/-- Python truthiness of an optional string: `None` and `""` are falsy. -/
def truthy : Option String → Bool
  | none => false
  | some s => s ≠ ""

/-- Lookup in a Python-style dict (association list in insertion order):
the last binding of the key wins, mirroring overwrite-on-reinsert. -/
def pyGetLast {α : Type} (m : List (String × α)) (k : String) : Option α :=
  (m.reverse.find? (fun p => p.1 == k)).map (fun p => p.2)

/-- Python `dict.get(k, d)`: lookup with a default. -/
def pyGetD {α : Type} (m : List (String × α)) (k : String) (d : α) : α :=
  (pyGetLast m k).getD d

/-- Python `k in dict`: key membership. -/
def pyDictHas {α : Type} (m : List (String × α)) (k : String) : Bool :=
  m.any (fun p => p.1 == k)

/-- Python `dict[k] = v`: append a binding (with last-wins lookup this
models overwrite). -/
def pyDictSet {α : Type} (m : List (String × α)) (k : String) (v : α) : List (String × α) :=
  m ++ [(k, v)]

namespace MerakiApiUtils

/-- A raw organization record as returned by
`dashboard.organizations.getOrganizations()`; fields accessed by
`list_organizations` when formatting. -/
structure RawOrg where
  id : String
  name : String
  url : String
  apiEnabled : Bool
  licensingModel : String
deriving Repr, DecidableEq

/-- A raw network record as returned by
`dashboard.organizations.getOrganizationNetworks(...)`; fields accessed by
the network formatting and join code. -/
structure RawNetwork where
  id : String
  name : String
  ntype : String
  timeZone : String
  tags : List String
deriving Repr, DecidableEq

/-- The `required_app_setup_parm` dictionary restricted to the three keys
the code reads with `.get(key, False)`; absent keys read as `false`. -/
structure ReqFlags where
  api_key : Bool
  organization_id : Bool
  network_id : Bool
deriving Repr, DecidableEq

/-- The `app_setup_param` dictionary restricted to the keys
`setup_application_parameters` reads with `.get`; `none` models an absent
key (Python `None`). -/
structure SetupParams where
  api_key : Option String
  organization_id : Option String
  org_name : Option String
  network_id : Option String
  net_name : Option String
deriving Repr, DecidableEq

/-- The mutable instance state of `MerakiAPIWrapper`. `dashboard` records
whether `self._dashboard` is a live client (the `meraki.DashboardAPI`
constructor is modelled as always succeeding); the two caches mirror
`self._organizations_cache` and `self._networks_cache`, and
`required_app_setup_param` is `none` while the stored dict is still the
initial empty `{}` (Python-falsy). -/
structure WrapperState where
  api_key : Option String
  organization_id : Option String
  organization_name : Option String
  network_id : Option String
  network_name : Option String
  enable_caching : Bool
  dashboard : Bool
  organizations_cache : Option (List RawOrg)
  networks_cache : Option (List (String × List RawNetwork))
  required_app_setup_param : Option ReqFlags
deriving Repr, DecidableEq

/-- `MerakiAPIWrapper.set_api_key`: prefer the passed argument, fall back
to the `MK_CSM_KEY` environment variable (`env`), else clear the key; then
(re)initialize or drop the dashboard client according to the new key. -/
def set_api_key (st : WrapperState) (api_key : Option String) (env : Option String) : WrapperState :=
  let st1 :=
    if truthy api_key then { st with api_key := api_key }
    else if truthy env then { st with api_key := env }
    else { st with api_key := none }
  if truthy st1.api_key then { st1 with dashboard := true }
  else { st1 with dashboard := false }

/-- `MerakiAPIWrapper.is_api_key_set`. -/
def is_api_key_set (st : WrapperState) : Bool :=
  truthy st.api_key

/-- `MerakiAPIWrapper.set_organization_id`: no-op when the id is falsy;
otherwise store the id and, only when provided (truthy), the name. -/
def set_organization_id (st : WrapperState) (organization_id : String) (organization_name : Option String) : WrapperState :=
  if organization_id ≠ "" then
    let st1 := { st with organization_id := some organization_id }
    if truthy organization_name then { st1 with organization_name := organization_name }
    else st1
  else st

/-- `MerakiAPIWrapper.is_organization_id_set`. -/
def is_organization_id_set (st : WrapperState) : Bool :=
  truthy st.organization_id

/-- `MerakiAPIWrapper.set_network_id`: same contract as the organization
setter, one level deeper. -/
def set_network_id (st : WrapperState) (network_id : String) (network_name : Option String) : WrapperState :=
  if network_id ≠ "" then
    let st1 := { st with network_id := some network_id }
    if truthy network_name then { st1 with network_name := network_name }
    else st1
  else st

/-- `MerakiAPIWrapper.is_network_id_set`. -/
def is_network_id_set (st : WrapperState) : Bool :=
  truthy st.network_id

/-- `MerakiAPIWrapper._check_required_parameter_order`: a later parameter
may be required only if all preceding ones are. -/
def check_required_parameter_order (required_params : ReqFlags) : Bool :=
  if required_params.organization_id ∧ ¬ required_params.api_key then false
  else if required_params.network_id ∧ (¬ required_params.api_key ∨ ¬ required_params.organization_id) then false
  else true

/-- The api-key step of `setup_application_parameters`: when required, call
`set_api_key` with the supplied value (environment fallback inside) and
fail if the key did not end up set. Returns (continue?, new state). -/
def setupApiStep (st : WrapperState) (flags : ReqFlags) (params : SetupParams) (env : Option String) : Bool × WrapperState :=
  if flags.api_key then
    let st1 := set_api_key st params.api_key env
    (is_api_key_set st1, st1)
  else (true, st)

/-- The organization step of `setup_application_parameters`: prerequisite
check, then require a truthy supplied id, set it, and re-check. -/
def setupOrgStep (st : WrapperState) (flags : ReqFlags) (params : SetupParams) : Bool × WrapperState :=
  if flags.organization_id then
    if ¬ is_api_key_set st then (false, st)
    else if truthy params.organization_id then
      let st1 := set_organization_id st (params.organization_id.getD "") params.org_name
      (is_organization_id_set st1, st1)
    else (false, st)
  else (true, st)

/-- The network step of `setup_application_parameters`: prerequisite check
on both ancestors, then require a truthy supplied id, set it, re-check. -/
def setupNetStep (st : WrapperState) (flags : ReqFlags) (params : SetupParams) : Bool × WrapperState :=
  if flags.network_id then
    if ¬ is_api_key_set st ∨ ¬ is_organization_id_set st then (false, st)
    else if truthy params.network_id then
      let st1 := set_network_id st (params.network_id.getD "") params.net_name
      (is_network_id_set st1, st1)
    else (false, st)
  else (true, st)

/-- The opening of `setup_application_parameters`: update the instance
caching flag when the argument is not `None`. -/
def setupCacheState (st : WrapperState) (enable_caching : Option Bool) : WrapperState :=
  match enable_caching with
  | some b => { st with enable_caching := b }
  | none => st

/-- The assignment `self._required_app_setup_param = required_app_setup_parm`
performed after the ordering check passes. -/
def setupStoreFlags (st : WrapperState) (flags : ReqFlags) : WrapperState :=
  { st with required_app_setup_param := some flags }

/-- `MerakiAPIWrapper.setup_application_parameters`: optionally update the
caching flag, validate ordering, store the required flags, then run the
three steps in order, returning `false` with the state as mutated so far
the moment a step fails. -/
def setup_application_parameters (st : WrapperState) (required_app_setup_parm : ReqFlags) (app_setup_param : SetupParams) (env : Option String) (enable_caching : Option Bool) : Bool × WrapperState :=
  let stC := setupCacheState st enable_caching
  if ¬ check_required_parameter_order required_app_setup_parm then (false, stC)
  else
    let st0 := setupStoreFlags stC required_app_setup_parm
    let r1 := setupApiStep st0 required_app_setup_parm app_setup_param env
    if ¬ r1.1 then (false, r1.2)
    else
      let r2 := setupOrgStep r1.2 required_app_setup_parm app_setup_param
      if ¬ r2.1 then (false, r2.2)
      else
        let r3 := setupNetStep r2.2 required_app_setup_parm app_setup_param
        if ¬ r3.1 then (false, r3.2)
        else (true, r3.2)

end MerakiApiUtils

namespace LocalDnsLogic

/-- A single JSON value as it appears in a response object's fields.
`null` also stands for Python `None` produced by `dict.get` misses.
Response bodies of the operations verified here are flat JSON objects, so
nested values are not modelled. -/
inductive JVal where
  | s (v : String)
  | n (v : Int)
  | b (v : Bool)
  | null
deriving Repr, DecidableEq

/-- A JSON object body (Python dict), in insertion order. -/
abbrev JObj : Type := List (String × JVal)

/-- Python `dict.get(k)` on a response object: `None` (here `JVal.null`)
when the key is absent. -/
def jGet (body : JObj) (k : String) : JVal :=
  (pyGetLast body k).getD JVal.null

/-- The outcome of the `requests.request(...)`/`raise_for_status()` call in
`make_request`: a 2xx response carrying its parsed body (`none` for an
empty body), or one of the exception classes the `except` clauses catch.
`raise_for_status` errors always carry the response, so `httpError` holds
the status code and raw body text. -/
inductive HttpOutcome where
  | success (body : Option JObj)
  | httpError (status : Nat) (body : String)
  | connectionError (msg : String)
  | timeout (msg : String)
  | requestException (msg : String)
  | unexpected (msg : String)
deriving Repr, DecidableEq

/-- What `make_request` returns: a parsed JSON object (2xx, body present),
the Python `None` marker (2xx, empty body), or a structured error dict
`{error, details, status_code?}`. -/
inductive DnsResult where
  | ok (body : JObj)
  | noContent
  | err (kind : String) (details : String) (status : Option Nat)
deriving Repr, DecidableEq

/-- The shared try/except body of `local_dns_logic.make_request` and
`ProjectLogic._make_request` (the two are textually identical): map each
transport outcome to the returned value. -/
def classifyOutcome : HttpOutcome → DnsResult
  | .success (some body) => .ok body
  | .success none => .noContent
  | .httpError status body => .err "HTTPError" body (some status)
  | .connectionError msg => .err "ConnectionError" msg none
  | .timeout msg => .err "TimeoutError" msg none
  | .requestException msg => .err "RequestException" msg none
  | .unexpected msg => .err "UnexpectedError" msg none

/-- The URL template both request builders use; Python string interpolation
renders an unset id (`None`) as the literal text `None`. -/
def buildUrl (organization_id : Option String) (endpoint : String) : String :=
  "https://api.meraki.com/api/v1/organizations/" ++
    (match organization_id with
      | some s => s
      | none => "None") ++
    "/appliance/dns/local/" ++ endpoint

/-- `local_dns_logic.make_request`: fail fast with `NoOrganizationSelected`
when the module-level `ORGANIZATION_ID` is falsy, otherwise issue the HTTP
request and classify its outcome. The first component records whether
`requests.request` was invoked at all. -/
def make_request (organization_id : Option String) (method endpoint : String)
    (payload : Option JObj) (outcome : HttpOutcome) : Bool × DnsResult :=
  if ¬ truthy organization_id then
    (false, .err "NoOrganizationSelected" "Please select an organization first." none)
  else
    let _ := buildUrl organization_id endpoint
    let _ := (method, payload)
    (true, classifyOutcome outcome)

end LocalDnsLogic

namespace ProjectLogic

open LocalDnsLogic

/-- `ProjectLogic._make_request`: templates
`self._api_utils.get_organization_id()` straight into the URL and issues
the HTTP request — there is no organization-scope check. The first
component records that `requests.request` was invoked. -/
def pl_make_request (organization_id : Option String) (method endpoint : String)
    (payload : Option JObj) (outcome : HttpOutcome) : Bool × DnsResult :=
  let _ := buildUrl organization_id endpoint
  let _ := (method, payload)
  (true, classifyOutcome outcome)

end ProjectLogic

namespace LocalDnsLogic

/-- The `isinstance(response, dict) and "error" in response` test the
domain operations apply to a `make_request` result: the structured error
records constructed by `make_request` are dicts containing `"error"`, and
a 2xx JSON-object body containing an `"error"` key also passes the test. -/
def isErrorDict : DnsResult → Bool
  | .err _ _ _ => true
  | .ok body => pyDictHas body "error"
  | .noContent => false

/-- A Python exception escaping a domain operation (by exception class
name); the embedding returns `Except PyExn` where the source would raise. -/
abbrev PyExn : Type := String

/-- `local_dns_logic.create_profile`, given the `make_request` response:
pass an error dict through unchanged; otherwise build the display record
via `response.get(...)` — which raises `AttributeError` when the response
is the `None` no-content marker. -/
def create_profile (response : DnsResult) : Except PyExn DnsResult :=
  if isErrorDict response then .ok response
  else
    match response with
    | .noContent =>
        .error "AttributeError"
    | .ok body =>
        .ok (.ok [("Profile ID", jGet body "profileId"), ("Name", jGet body "name")])
    | .err k d s => .ok (.err k d s)

/-- `local_dns_logic.delete_profile`, given the `make_request` response:
both branches only log; the response is returned unchanged. -/
def delete_profile (response : DnsResult) : Except PyExn DnsResult :=
  .ok response

/-- `local_dns_logic.create_dns_record`, given the `make_request` response:
the success branch evaluates `response.get("recordId")` for logging —
raising `AttributeError` on the no-content marker — then returns the
response unchanged. -/
def create_dns_record (response : DnsResult) : Except PyExn DnsResult :=
  if isErrorDict response then .ok response
  else
    match response with
    | .noContent => .error "AttributeError"
    | .ok body =>
        let _ := jGet body "recordId"
        .ok (.ok body)
    | .err k d s => .ok (.err k d s)

/-- `local_dns_logic.delete_dns_record`: both branches only log; the
response is returned unchanged. -/
def delete_dns_record (response : DnsResult) : Except PyExn DnsResult :=
  .ok response

/-- `local_dns_logic.assign_profile_to_network`, given the response to the
`bulkCreate` call: both branches only log; returned unchanged. -/
def assign_profile_to_network (response : DnsResult) : Except PyExn DnsResult :=
  .ok response

/-- `local_dns_logic.remove_network_assignment`, given the response to the
`bulkDelete` call: both branches only log; returned unchanged. -/
def remove_network_assignment (response : DnsResult) : Except PyExn DnsResult :=
  .ok response

open MerakiApiUtils (RawNetwork)

/-- A raw profile item from the `GET profiles` response (`"items"`). -/
structure RawProfile where
  profileId : String
  name : String
deriving Repr, DecidableEq

/-- A raw assignment item from the `GET profiles/assignments` response:
`assignmentId`, `network.id` and `profile.id`, with `""` modelling an
absent/`None` id (Python-falsy). -/
structure RawAssignment where
  assignmentId : String
  networkId : String
  profileId : String
deriving Repr, DecidableEq

/-- A display row of `local_dns_logic.list_networks`
(keys `ID`, `Name`, `Type`, `Time Zone`, `Tags`). -/
structure NetRow where
  id : String
  name : String
  ntype : String
  timeZone : String
  tags : String
deriving Repr, DecidableEq

/-- A display row of `local_dns_logic.list_network_assignments`
(keys `Assignment ID`, `Network ID`, `Network Name`, `Profile ID`,
`Profile Name`). -/
structure AsgRow where
  assignmentId : String
  networkId : String
  networkName : String
  profileId : String
  profileName : String
deriving Repr, DecidableEq

/-- A display row of `local_dns_logic.list_profiles`
(keys `Profile ID`, `Name`, `Network ID`, `Network Name`). -/
structure ProfRow where
  profileId : String
  name : String
  networkId : String
  networkName : String
deriving Repr, DecidableEq

/-- The formatting loop of `local_dns_logic.list_networks` applied to a
successful `_get_networks` response (the empty-response branch returns
`[]`, which coincides with mapping the empty list). -/
def list_networks_rows (networks : List RawNetwork) : List NetRow :=
  networks.map (fun network =>
    ⟨network.id, network.name, network.ntype, network.timeZone,
      String.intercalate ", " network.tags⟩)

/-- The join of `local_dns_logic.list_network_assignments` applied to
successful responses: build `id → name` dicts for networks and profiles,
then format each assignment, resolving absent ids to `"[unknown]"`. -/
def list_network_assignments_rows (networks : List RawNetwork)
    (profiles : List RawProfile) (assignments : List RawAssignment) : List AsgRow :=
  let network_map := networks.map (fun network => (network.id, network.name))
  let profile_map := profiles.map (fun profile => (profile.profileId, profile.name))
  assignments.map (fun assignment =>
    ⟨assignment.assignmentId,
      assignment.networkId,
      pyGetD network_map assignment.networkId "[unknown]",
      assignment.profileId,
      pyGetD profile_map assignment.profileId "[unknown]"⟩)

/-- One iteration of the `profile_to_network` loop in
`local_dns_logic.list_profiles`: enter the assignment only when both its
profile id and network id are truthy, storing
(`Network ID`, resolved `Network Name`); re-entering a profile overwrites
its earlier entry. -/
def p2nStep (network_map : List (String × String))
    (m : List (String × String × String)) (assignment : AsgRow) : List (String × String × String) :=
  if assignment.profileId ≠ "" ∧ assignment.networkId ≠ "" then
    pyDictSet m assignment.profileId
      (assignment.networkId, pyGetD network_map assignment.networkId "[unknown]")
  else m

/-- The `profile_to_network` dict built by `local_dns_logic.list_profiles`
from the enriched assignment rows. -/
def profile_to_network (assignments : List AsgRow)
    (network_map : List (String × String)) : List (String × String × String) :=
  assignments.foldl (p2nStep network_map) []

/-- `local_dns_logic.list_profiles` on successful fetches: enrich the raw
profiles with the (last) assigned network's id and resolved name, or the
`"[unassigned]"` sentinels. The assignments are first enriched by
`list_network_assignments` and the network map is rebuilt from the
formatted `list_networks` rows, exactly as in the source (the in-session
cache makes both network fetches return the same list). -/
def list_profiles_rows (profiles : List RawProfile)
    (assignments : List RawAssignment) (networks : List RawNetwork) : List ProfRow :=
  let asgRows := list_network_assignments_rows networks profiles assignments
  let netRows := list_networks_rows networks
  let network_map := netRows.map (fun network => (network.id, network.name))
  let p2n := profile_to_network asgRows network_map
  profiles.map (fun profile =>
    match pyGetLast p2n profile.profileId with
    | some v => ⟨profile.profileId, profile.name, v.1, v.2⟩
    | none => ⟨profile.profileId, profile.name, "[unassigned]", "[unassigned]"⟩)

/-- One step of scanning for the assignment that wins for a profile:
keep the latest assignment whose profile id matches and whose profile and
network ids are both truthy. -/
def lastValidStep (pid : String) (acc : Option RawAssignment) (assignment : RawAssignment) : Option RawAssignment :=
  if assignment.profileId == pid && assignment.profileId != "" && assignment.networkId != "" then
    some assignment
  else acc

/-- The last assignment in the list that references the given profile with
truthy profile and network ids — the one whose network wins in
`profile_to_network` (dict overwrite keeps the last). -/
def lastValidAssignment (assignments : List RawAssignment) (pid : String) : Option RawAssignment :=
  assignments.foldl (lastValidStep pid) none

/-- The display row `list_profiles` produces for one profile, stated
directly in terms of the winning assignment: the profile is enriched with
the last valid assignment's network id and resolved name, or with the
`"[unassigned]"` sentinels when no valid assignment references it. -/
def profRowFor (assignments : List RawAssignment) (networks : List RawNetwork) (p : RawProfile) : ProfRow :=
  match lastValidAssignment assignments p.profileId with
  | some a => ⟨p.profileId, p.name, a.networkId,
      pyGetD (networks.map (fun n => (n.id, n.name))) a.networkId "[unknown]"⟩
  | none => ⟨p.profileId, p.name, "[unassigned]", "[unassigned]"⟩

end LocalDnsLogic

namespace MerakiApiUtils

/-- The outcome of a Meraki SDK fetch (`getOrganizations` /
`getOrganizationNetworks`): a successful list, a `meraki.APIError`, or any
other exception. -/
inductive Fetch (α : Type) where
  | ok (xs : List α)
  | apiError (status : Nat) (msg : String)
  | exn (msg : String)
deriving Repr, DecidableEq

/-- A structured error dict `{error, details, status_code?}`. -/
structure ErrRec where
  kind : String
  details : String
  status : Option Nat
deriving Repr, DecidableEq

/-- The `Union[List[...], Dict]` return shape of the wrapper's fetch and
list functions: a data list or a structured error dict. -/
inductive Fetched (α : Type) where
  | data (xs : List α)
  | err (e : ErrRec)
deriving Repr, DecidableEq

/-- The error record a failing SDK fetch is mapped to by the `except`
clauses of `_get_organizations` / `_get_networks`. -/
def fetchErr {α : Type} : Fetch α → Option ErrRec
  | .ok _ => none
  | .apiError status msg => some ⟨"MerakiAPIError", msg, some status⟩
  | .exn msg => some ⟨"UnexpectedError", msg, none⟩

/-- `MerakiAPIWrapper.get_dashboard`: reuse the live client, else create
one when the key is set (the constructor is modelled as succeeding), else
`None`. -/
def get_dashboard (st : WrapperState) : Option Unit × WrapperState :=
  if st.dashboard then (some (), st)
  else if truthy st.api_key then (some (), { st with dashboard := true })
  else (none, st)

/-- The fetch path of `_get_organizations` (cache miss or bypass):
dashboard check, SDK call, and — when caching is enabled — storing the
fetched list, or the empty list on failure. -/
def get_organizations_fetch (st : WrapperState) (fetch : Fetch RawOrg) : Fetched RawOrg × WrapperState :=
  match get_dashboard st with
  | (none, st1) => (.err ⟨"DashboardAPIError", "Meraki Dashboard API not initialized.", none⟩, st1)
  | (some _, st1) =>
    match fetch with
    | .ok fetched_data =>
        (.data fetched_data,
         if st1.enable_caching then { st1 with organizations_cache := some fetched_data } else st1)
    | .apiError status msg =>
        (.err ⟨"MerakiAPIError", msg, some status⟩,
         if st1.enable_caching then { st1 with organizations_cache := some [] } else st1)
    | .exn msg =>
        (.err ⟨"UnexpectedError", msg, none⟩,
         if st1.enable_caching then { st1 with organizations_cache := some [] } else st1)

/-- `MerakiAPIWrapper._get_organizations`: serve the cache when the call
asks for it, caching is enabled and a cached list exists; otherwise take
the fetch path. -/
def get_organizations (st : WrapperState) (use_cache : Bool) (fetch : Fetch RawOrg) : Fetched RawOrg × WrapperState :=
  if use_cache && st.enable_caching then
    match st.organizations_cache with
    | some cached => (.data cached, st)
    | none => get_organizations_fetch st fetch
  else get_organizations_fetch st fetch

/-- A display row of `MerakiAPIWrapper.list_organizations` (keys `id`,
`name`, `url`, `api enabled`, `licensing model`). -/
structure OrgRow where
  id : String
  name : String
  url : String
  apiEnabled : Bool
  licensingModel : String
deriving Repr, DecidableEq

/-- `MerakiAPIWrapper.list_organizations`: pass a structured error through,
otherwise format the raw list for display (the empty-list branch returns
`[]`, which coincides with mapping the empty list). -/
def list_organizations (st : WrapperState) (use_cache : Bool) (fetch : Fetch RawOrg) : Fetched OrgRow × WrapperState :=
  match get_organizations st use_cache fetch with
  | (.err e, st1) => (.err e, st1)
  | (.data orgs, st1) =>
      (.data (orgs.map (fun org =>
        ⟨org.id, org.name, org.url, org.apiEnabled, org.licensingModel⟩)), st1)

/-- The fetch path of `_get_networks` for a resolved organization id
(cache miss or bypass), mirroring `get_organizations_fetch` but keyed by
the organization id in the networks cache. Expects the cache dict already
initialized (`st.networks_cache ≠ none`). -/
def get_networks_fetch (st : WrapperState) (cur_id : String) (fetch : Fetch RawNetwork) : Fetched RawNetwork × WrapperState :=
  match get_dashboard st with
  | (none, st1) => (.err ⟨"DashboardAPIError", "Meraki Dashboard API not initialized.", none⟩, st1)
  | (some _, st1) =>
    match fetch with
    | .ok fetched_data =>
        (.data fetched_data,
         if st1.enable_caching then
           { st1 with networks_cache := some (pyDictSet (st1.networks_cache.getD []) cur_id fetched_data) }
         else st1)
    | .apiError status msg =>
        (.err ⟨"MerakiAPIError", msg, some status⟩,
         if st1.enable_caching then
           { st1 with networks_cache := some (pyDictSet (st1.networks_cache.getD []) cur_id []) }
         else st1)
    | .exn msg =>
        (.err ⟨"UnexpectedError", msg, none⟩,
         if st1.enable_caching then
           { st1 with networks_cache := some (pyDictSet (st1.networks_cache.getD []) cur_id []) }
         else st1)

/-- `MerakiAPIWrapper._get_networks`: resolve the organization id (the
passed argument when not `None`, else the selected one), fail fast when it
is falsy, initialize the cache dict, then serve the cached entry or take
the fetch path. -/
def get_networks (st : WrapperState) (organization_id : Option String) (use_cache : Bool) (fetch : Fetch RawNetwork) : Fetched RawNetwork × WrapperState :=
  let current_organization_id :=
    match organization_id with
    | some s => some s
    | none => st.organization_id
  if ¬ truthy current_organization_id then
    (.err ⟨"NoOrganizationSelected", "Please select an organization first.", none⟩, st)
  else
    let cur := current_organization_id.getD ""
    let st1 := { st with networks_cache := some (st.networks_cache.getD []) }
    if use_cache && st1.enable_caching && pyDictHas (st1.networks_cache.getD []) cur then
      (.data (pyGetD (st1.networks_cache.getD []) cur []), st1)
    else get_networks_fetch st1 cur fetch

end MerakiApiUtils

namespace LocalDnsLogic

open MerakiApiUtils (Fetched ErrRec RawNetwork)

/-- Every possible `make_request` result for the item-bearing GET
endpoints (`profiles`, `records`, `profiles/assignments`): a structured
error dict, the empty-body no-content marker (Python `None`), or a 2xx
JSON object modelled by its optional `"items"` list (the vendor's success
bodies for these endpoints carry no `"error"` key). -/
inductive ItemsResult (α : Type) where
  | err (kind : String) (details : String) (status : Option Nat)
  | noContent
  | obj (items : Option (List α))
deriving Repr, DecidableEq

/-- A raw DNS record item from the `GET records` response: `recordId`,
`hostname`, `address` and `profile.id`, with `""` modelling an
absent/`None` field. -/
structure RawRecord where
  recordId : String
  hostname : String
  address : String
  profileId : String
deriving Repr, DecidableEq

/-- A display row of `local_dns_logic.list_dns_records`
(keys `Record ID`, `Hostname`, `Address`, `Profile ID`). -/
structure RecRow where
  recordId : String
  hostname : String
  address : String
  profileId : String
deriving Repr, DecidableEq

/-- The `Union[List[...], Dict]` return shape of the list operations: the
formatted display rows, or a structured error dict passed through. -/
inductive OpResult (α : Type) where
  | rows (xs : List α)
  | err (kind : String) (details : String) (status : Option Nat)
deriving Repr, DecidableEq

/-- Python's `resp.get("items", []) if resp else []`: the items when the
response is a dict containing them, else the empty list. -/
def itemsOrEmpty {α : Type} : ItemsResult α → List α
  | .obj (some items) => items
  | _ => []

/-- The `try/except Exception` boundary wrapping `list_profiles` and
`list_network_assignments`: a normal return passes through, and any
exception the body raises is caught, logged and converted to the
`{error: UnexpectedError, details: str(e)}` record. -/
def pyTryOp {α : Type} (body : Except PyExn (OpResult α)) : Except PyExn (OpResult α) :=
  match body with
  | .ok v => .ok v
  | .error e => .ok (.err "UnexpectedError" e none)

/-- `local_dns_logic.list_networks` given the `_get_networks` outcome:
pass a structured error dict through unchanged, otherwise format the raw
networks (the empty-response branch returns `[]`, which coincides with
mapping the empty list). -/
def list_networks (response : Fetched RawNetwork) : OpResult NetRow :=
  match response with
  | .err e => .err e.kind e.details e.status
  | .data networks => .rows (list_networks_rows networks)

/-- `local_dns_logic.list_network_assignments`, given the outcomes of its
three fetches (`_get_networks`, `GET profiles`, `GET profiles/assignments`)
in source order: each structured error is passed through unchanged, the
profiles items default to `[]` via `.get("items", [])`, an assignments
response that is falsy or lacks `"items"` yields `[]`, and the whole body
sits inside the catch-all boundary. -/
def list_network_assignments
    (networks_response : Fetched RawNetwork)
    (profiles_response : ItemsResult RawProfile)
    (assignments_response : ItemsResult RawAssignment) : Except PyExn (OpResult AsgRow) :=
  pyTryOp
    (match networks_response with
    | .err e => .ok (.err e.kind e.details e.status)
    | .data networks =>
      match profiles_response with
      | .err k d s => .ok (.err k d s)
      | profilesResp =>
        let profiles := itemsOrEmpty profilesResp
        match assignments_response with
        | .err k d s => .ok (.err k d s)
        | .obj (some items) => .ok (.rows (list_network_assignments_rows networks profiles items))
        | _ => .ok (.rows []))

/-- `local_dns_logic.list_dns_records` given the `GET records` outcome:
pass a structured error through unchanged; a response that is falsy or
lacks `"items"` (the no-content marker included) yields `[]`; otherwise
format the items. The source has no try/except here — none is needed, and
the embedding shows the operation total. -/
def list_dns_records (response : ItemsResult RawRecord) : Except PyExn (OpResult RecRow) :=
  match response with
  | .err k d s => .ok (.err k d s)
  | .obj (some items) =>
      .ok (.rows (items.map (fun record =>
        ⟨record.recordId, record.hostname, record.address, record.profileId⟩)))
  | _ => .ok (.rows [])

/-- `local_dns_logic.list_profiles`, given the outcomes of its own
`GET profiles` call and of the three fetches the nested
`list_network_assignments` / `list_networks` calls perform (the network
fetch appears once: the in-session cache makes both uses identical, while
the two `GET profiles` calls are uncached and independent). Error dicts
are passed through unchanged; a falsy or items-less profiles response
yields `[]`; otherwise the join of `list_profiles` runs, all inside the
catch-all boundary. -/
def list_profiles
    (profiles_response : ItemsResult RawProfile)
    (networks_response : Fetched RawNetwork)
    (asg_profiles_response : ItemsResult RawProfile)
    (assignments_response : ItemsResult RawAssignment) : Except PyExn (OpResult ProfRow) :=
  pyTryOp
    (match profiles_response with
    | .err k d s => .ok (.err k d s)
    | .noContent => .ok (.rows [])
    | .obj none => .ok (.rows [])
    | .obj (some profiles_data) =>
      match list_network_assignments networks_response asg_profiles_response assignments_response with
      | .error e => .error e
      | .ok (.err k d s) => .ok (.err k d s)
      | .ok (.rows asgRows) =>
        match list_networks networks_response with
        | .err k d s => .ok (.err k d s)
        | .rows netRows =>
          let network_map := netRows.map (fun network => (network.id, network.name))
          let p2n := profile_to_network asgRows network_map
          .ok (.rows (profiles_data.map (fun profile =>
            match pyGetLast p2n profile.profileId with
            | some v => ⟨profile.profileId, profile.name, v.1, v.2⟩
            | none => ⟨profile.profileId, profile.name, "[unassigned]", "[unassigned]"⟩))))

end LocalDnsLogic

/-- A sample wrapper state with credential and organization selected. -/
def demoState : MerakiApiUtils.WrapperState :=
  ⟨some "k", some "o1", some "OrgOne", none, none, true, true, none, none, none⟩

/-- A sample freshly-constructed wrapper state (nothing selected). -/
def blankState : MerakiApiUtils.WrapperState :=
  ⟨none, none, none, none, none, false, false, none, none, none⟩

/-! ## Shared lemmas -/

section Helpers

open MerakiApiUtils LocalDnsLogic

theorem pyGetLast_nil {α : Type} (k : String) : pyGetLast ([] : List (String × α)) k = none := rfl

theorem pyGetLast_set {α : Type} (m : List (String × α)) (k k' : String) (v : α) :
    pyGetLast (pyDictSet m k v) k' = if k == k' then some v else pyGetLast m k' := by
  unfold pyGetLast pyDictSet
  rw [List.reverse_append]
  by_cases h : (k == k')
  · simp [h]
  · simp [h]

theorem pyGetLast_eq_none {α : Type} (m : List (String × α)) (k : String)
    (h : ∀ p ∈ m, p.1 ≠ k) : pyGetLast m k = none := by
  unfold pyGetLast
  have : m.reverse.find? (fun p => p.1 == k) = none := by
    rw [List.find?_eq_none]
    intro p hp
    simpa using h p (List.mem_reverse.mp hp)
  simp [this]

theorem pyDictHas_set_self {α : Type} (m : List (String × α)) (k : String) (v : α) :
    pyDictHas (pyDictSet m k v) k = true := by
  simp [pyDictHas, pyDictSet]

theorem set_organization_id_of_ne (st : WrapperState) (id : String) (nm : Option String)
    (h : id ≠ "") : (set_organization_id st id nm).organization_id = some id := by
  unfold set_organization_id
  rw [if_pos h]
  by_cases hn : truthy nm <;> simp [hn]

theorem set_network_id_of_ne (st : WrapperState) (id : String) (nm : Option String)
    (h : id ≠ "") : (set_network_id st id nm).network_id = some id := by
  unfold set_network_id
  rw [if_pos h]
  by_cases hn : truthy nm <;> simp [hn]

theorem truthy_getD_ne (o : Option String) (h : truthy o = true) : o.getD "" ≠ "" := by
  cases o with
  | none => simp [truthy] at h
  | some s => simpa [truthy] using h

theorem truthy_none : truthy none = false := rfl

theorem set_api_key_frame (st : WrapperState) (k env : Option String) :
    (set_api_key st k env).organization_id = st.organization_id ∧
    (set_api_key st k env).organization_name = st.organization_name ∧
    (set_api_key st k env).network_id = st.network_id ∧
    (set_api_key st k env).network_name = st.network_name := by
  unfold set_api_key
  by_cases h1 : truthy k <;> by_cases h2 : truthy env <;> simp [h1, h2, truthy_none]

theorem set_organization_id_frame (st : WrapperState) (id : String) (nm : Option String) :
    (set_organization_id st id nm).api_key = st.api_key ∧
    (set_organization_id st id nm).network_id = st.network_id ∧
    (set_organization_id st id nm).network_name = st.network_name := by
  unfold set_organization_id
  by_cases h : id ≠ "" <;> by_cases hn : truthy nm <;> simp [h, hn]

theorem set_network_id_frame (st : WrapperState) (id : String) (nm : Option String) :
    (set_network_id st id nm).api_key = st.api_key ∧
    (set_network_id st id nm).organization_id = st.organization_id ∧
    (set_network_id st id nm).organization_name = st.organization_name := by
  unfold set_network_id
  by_cases h : id ≠ "" <;> by_cases hn : truthy nm <;> simp [h, hn]

/-- A failing organization step leaves the state untouched. -/
theorem setupOrgStep_fail_frame (st : WrapperState) (flags : ReqFlags) (params : SetupParams)
    (h : (setupOrgStep st flags params).1 = false) : (setupOrgStep st flags params).2 = st := by
  unfold setupOrgStep at h ⊢
  by_cases h1 : flags.organization_id = true
  · rw [if_pos h1] at h ⊢
    by_cases h2 : is_api_key_set st = true
    · rw [if_neg (by simp [h2])] at h ⊢
      by_cases h3 : truthy params.organization_id = true
      · exfalso
        rw [if_pos h3] at h
        have hne := truthy_getD_ne _ h3
        have hset := set_organization_id_of_ne st _ params.org_name hne
        simp [is_organization_id_set, hset, truthy, hne] at h
      · rw [if_neg h3]
    · rw [if_pos (by simp [h2])]
  · rw [if_neg h1] at h ⊢

/-- A failing network step leaves the state untouched. -/
theorem setupNetStep_fail_frame (st : WrapperState) (flags : ReqFlags) (params : SetupParams)
    (h : (setupNetStep st flags params).1 = false) : (setupNetStep st flags params).2 = st := by
  unfold setupNetStep at h ⊢
  by_cases h1 : flags.network_id = true
  · rw [if_pos h1] at h ⊢
    by_cases h2 : (¬ is_api_key_set st ∨ ¬ is_organization_id_set st)
    · rw [if_pos h2]
    · rw [if_neg h2] at h ⊢
      by_cases h3 : truthy params.network_id = true
      · exfalso
        rw [if_pos h3] at h
        have hne := truthy_getD_ne _ h3
        have hset := set_network_id_of_ne st _ params.net_name hne
        simp [is_network_id_set, hset, truthy, hne] at h
      · rw [if_neg h3]
  · rw [if_neg h1] at h ⊢

theorem set_organization_id_mono (st : WrapperState) (id : String) (nm : Option String)
    (h : is_organization_id_set st = true) :
    is_organization_id_set (set_organization_id st id nm) = true := by
  by_cases hid : id ≠ ""
  · have hset := set_organization_id_of_ne st id nm hid
    simp [is_organization_id_set, hset, truthy, hid]
  · unfold set_organization_id
    rw [if_neg hid]
    exact h

theorem set_network_id_mono (st : WrapperState) (id : String) (nm : Option String)
    (h : is_network_id_set st = true) :
    is_network_id_set (set_network_id st id nm) = true := by
  by_cases hid : id ≠ ""
  · have hset := set_network_id_of_ne st id nm hid
    simp [is_network_id_set, hset, truthy, hid]
  · unfold set_network_id
    rw [if_neg hid]
    exact h

theorem setupCacheState_org (st : WrapperState) (cache : Option Bool) :
    (setupCacheState st cache).organization_id = st.organization_id := by
  cases cache <;> rfl

theorem setupCacheState_net (st : WrapperState) (cache : Option Bool) :
    (setupCacheState st cache).network_id = st.network_id := by
  cases cache <;> rfl

theorem setupApiStep_org (st : WrapperState) (flags : ReqFlags) (params : SetupParams) (env : Option String) :
    (setupApiStep st flags params env).2.organization_id = st.organization_id := by
  unfold setupApiStep
  by_cases h : flags.api_key = true
  · rw [if_pos h]
    exact (set_api_key_frame st params.api_key env).1
  · rw [if_neg h]

theorem setupApiStep_net (st : WrapperState) (flags : ReqFlags) (params : SetupParams) (env : Option String) :
    (setupApiStep st flags params env).2.network_id = st.network_id := by
  unfold setupApiStep
  by_cases h : flags.api_key = true
  · rw [if_pos h]
    exact (set_api_key_frame st params.api_key env).2.2.1
  · rw [if_neg h]

theorem setupOrgStep_org_mono (st : WrapperState) (flags : ReqFlags) (params : SetupParams)
    (h : is_organization_id_set st = true) :
    is_organization_id_set (setupOrgStep st flags params).2 = true := by
  unfold setupOrgStep
  by_cases h1 : flags.organization_id = true
  · rw [if_pos h1]
    by_cases h2 : is_api_key_set st = true
    · rw [if_neg (by simp [h2])]
      by_cases h3 : truthy params.organization_id = true
      · rw [if_pos h3]
        exact set_organization_id_mono st _ params.org_name h
      · rw [if_neg h3]
        exact h
    · rw [if_pos (by simp [h2])]
      exact h
  · rw [if_neg h1]
    exact h

theorem setupOrgStep_net (st : WrapperState) (flags : ReqFlags) (params : SetupParams) :
    (setupOrgStep st flags params).2.network_id = st.network_id := by
  unfold setupOrgStep
  by_cases h1 : flags.organization_id = true
  · rw [if_pos h1]
    by_cases h2 : is_api_key_set st = true
    · rw [if_neg (by simp [h2])]
      by_cases h3 : truthy params.organization_id = true
      · rw [if_pos h3]
        exact (set_organization_id_frame st _ params.org_name).2.1
      · rw [if_neg h3]
    · rw [if_pos (by simp [h2])]
  · rw [if_neg h1]

theorem setupNetStep_org (st : WrapperState) (flags : ReqFlags) (params : SetupParams) :
    (setupNetStep st flags params).2.organization_id = st.organization_id := by
  unfold setupNetStep
  by_cases h1 : flags.network_id = true
  · rw [if_pos h1]
    by_cases h2 : (¬ is_api_key_set st ∨ ¬ is_organization_id_set st)
    · rw [if_pos h2]
    · rw [if_neg h2]
      by_cases h3 : truthy params.network_id = true
      · rw [if_pos h3]
        exact (set_network_id_frame st _ params.net_name).2.1
      · rw [if_neg h3]
  · rw [if_neg h1]

theorem list_networks_rows_map_pairs (ns : List RawNetwork) :
    (list_networks_rows ns).map (fun r => (r.id, r.name)) = ns.map (fun n => (n.id, n.name)) := by
  simp [list_networks_rows, List.map_map, Function.comp]

/-- The `profile_to_network` fold over the enriched assignment rows,
looked up at one profile id, yields exactly the winning (last valid)
assignment's network id and resolved name, for any accumulator whose
lookup already agrees with a running winner `o`. -/
theorem p2n_foldl_lookup (nm : List (String × String)) (ns : List RawNetwork)
    (psl : List RawProfile) (pid : String) :
    ∀ (as : List RawAssignment) (acc : List (String × String × String)) (o : Option RawAssignment),
      pyGetLast acc pid = o.map (fun a => (a.networkId, pyGetD nm a.networkId "[unknown]")) →
      pyGetLast (List.foldl (p2nStep nm) acc (list_network_assignments_rows ns psl as)) pid =
        (as.foldl (lastValidStep pid) o).map (fun a => (a.networkId, pyGetD nm a.networkId "[unknown]")) := by
  intro as
  induction as with
  | nil =>
      intro acc o h
      simpa [list_network_assignments_rows] using h
  | cons a rest ih =>
      intro acc o h
      have hrow : list_network_assignments_rows ns psl (a :: rest) =
          (⟨a.assignmentId, a.networkId,
            pyGetD (ns.map (fun n => (n.id, n.name))) a.networkId "[unknown]",
            a.profileId,
            pyGetD (psl.map (fun p => (p.profileId, p.name))) a.profileId "[unknown]"⟩ : AsgRow) ::
          list_network_assignments_rows ns psl rest := by
        simp [list_network_assignments_rows]
      rw [hrow]
      simp only [List.foldl_cons]
      refine ih _ _ ?_
      simp only [p2nStep, lastValidStep]
      by_cases hv : a.profileId = ""
      · simp [hv, h]
      · by_cases hw : a.networkId = ""
        · simp [hv, hw, h]
        · rw [if_pos ⟨hv, hw⟩]
          rw [pyGetLast_set]
          by_cases hpid : (a.profileId == pid) = true
          · simp [hpid, bne_iff_ne, hv, hw]
          · simp [hpid, h]

/-- `profile_to_network` built from the enriched assignments, looked up at
a profile id, gives the winning assignment's (network id, resolved name). -/
theorem profile_to_network_lookup (nm : List (String × String)) (ns : List RawNetwork)
    (psl : List RawProfile) (as : List RawAssignment) (pid : String) :
    pyGetLast (profile_to_network (list_network_assignments_rows ns psl as) nm) pid =
      (lastValidAssignment as pid).map (fun a => (a.networkId, pyGetD nm a.networkId "[unknown]")) := by
  unfold profile_to_network lastValidAssignment
  exact p2n_foldl_lookup nm ns psl pid as [] none rfl

theorem lastValidAssignment_eq_none (as : List RawAssignment) (pid : String)
    (h : ∀ a ∈ as, a.profileId ≠ pid) : lastValidAssignment as pid = none := by
  unfold lastValidAssignment
  induction as with
  | nil => rfl
  | cons a rest ih =>
      simp only [List.foldl_cons]
      have ha := h a (List.mem_cons_self a rest)
      have hstep : lastValidStep pid none a = none := by
        simp [lastValidStep, ha]
      rw [hstep]
      exact ih (fun a' ha' => h a' (List.mem_cons_of_mem a ha'))

/-- The join performed by `list_profiles` equals, row by row, the
specification row `profRowFor`: each profile is paired with its winning
assignment's network (resolved against the current network list) or the
unassigned sentinels. -/
theorem list_profiles_rows_spec (ps : List RawProfile) (as : List RawAssignment) (ns : List RawNetwork) :
    list_profiles_rows ps as ns = ps.map (profRowFor as ns) := by
  simp only [list_profiles_rows]
  refine List.map_congr_left ?_
  intro p _
  rw [list_networks_rows_map_pairs, profile_to_network_lookup]
  cases h : lastValidAssignment as p.profileId <;> simp [profRowFor, h]

theorem setupNetStep_net_mono (st : WrapperState) (flags : ReqFlags) (params : SetupParams)
    (h : is_network_id_set st = true) :
    is_network_id_set (setupNetStep st flags params).2 = true := by
  unfold setupNetStep
  by_cases h1 : flags.network_id = true
  · rw [if_pos h1]
    by_cases h2 : (¬ is_api_key_set st ∨ ¬ is_organization_id_set st)
    · rw [if_pos h2]
      exact h
    · rw [if_neg h2]
      by_cases h3 : truthy params.network_id = true
      · rw [if_pos h3]
        exact set_network_id_mono st _ params.net_name h
      · rw [if_neg h3]
        exact h
  · rw [if_neg h1]
    exact h

end Helpers

/-! ## The claims -/

section Claims

open MerakiApiUtils LocalDnsLogic ProjectLogic

/-- Claim C1: over the required-flags configurations on
{api_key, organization_id, network_id}, `_check_required_parameter_order`
returns `false` exactly when organization_id is required without api_key,
or network_id is required without api_key or without organization_id — and
on every violating configuration `setup_application_parameters` returns
`false` as well (for every state, supplied values, environment and caching
argument). -/
theorem required_parameter_order_spec (flags : ReqFlags) :
    (((flags.organization_id = true ∧ flags.api_key = false) ∨
      (flags.network_id = true ∧ (flags.api_key = false ∨ flags.organization_id = false))) →
      check_required_parameter_order flags = false ∧
      ∀ (st : WrapperState) (params : SetupParams) (env : Option String) (cache : Option Bool),
        (setup_application_parameters st flags params env cache).1 = false) ∧
    (¬ ((flags.organization_id = true ∧ flags.api_key = false) ∨
        (flags.network_id = true ∧ (flags.api_key = false ∨ flags.organization_id = false))) →
      check_required_parameter_order flags = true) := by
  have hiff : check_required_parameter_order flags = false ↔
      ((flags.organization_id = true ∧ flags.api_key = false) ∨
       (flags.network_id = true ∧ (flags.api_key = false ∨ flags.organization_id = false))) := by
    rcases flags with ⟨a, o, n⟩
    cases a <;> cases o <;> cases n <;> simp [check_required_parameter_order]
  constructor
  · intro hviol
    have hfalse := hiff.mpr hviol
    refine ⟨hfalse, ?_⟩
    intro st params env cache
    simp [setup_application_parameters, hfalse]
  · intro hok
    cases hb : check_required_parameter_order flags with
    | false => exact absurd (hiff.mp hb) hok
    | true => rfl

/-- Claim C1 witness: a violating configuration (organization required
without api key) fails both checks, and a respecting one passes. -/
theorem required_parameter_order_spec_witness :
    check_required_parameter_order ⟨false, true, false⟩ = false ∧
    (setup_application_parameters demoState ⟨false, true, false⟩
      ⟨none, none, none, none, none⟩ none none).1 = false ∧
    check_required_parameter_order ⟨true, true, false⟩ = true := by
  have h1 := (required_parameter_order_spec ⟨false, true, false⟩).1 (Or.inl ⟨rfl, rfl⟩)
  have h2 := (required_parameter_order_spec ⟨true, true, false⟩).2 (by simp)
  exact ⟨h1.1, h1.2 demoState ⟨none, none, none, none, none⟩ none none, h2⟩

/-- Claim C2 counterexample: with no organization id set,
`ProjectLogic._make_request` still issues the HTTP call (first component
`true`) and returns the classified transport result instead of the
`NoOrganizationSelected` record, so the fail-fast property does not hold
for every request-building entry point. -/
theorem pl_make_request_ignores_missing_organization :
    (pl_make_request none "GET" "profiles" none (.success (some []))).1 = true ∧
    (pl_make_request none "GET" "profiles" none (.success (some []))).2 = DnsResult.ok [] ∧
    (pl_make_request none "GET" "profiles" none (.success (some []))).2 ≠
      DnsResult.err "NoOrganizationSelected" "Please select an organization first." none := by
  refine ⟨rfl, rfl, ?_⟩
  decide

/-- Claim C2 (amended): `local_dns_logic.make_request` fails fast with the
`NoOrganizationSelected` record and no HTTP call whenever the organization
id is unset or empty, for every method, endpoint and payload;
`ProjectLogic._make_request`, by contrast, performs no scope check — it
always issues the HTTP request, templating the unset organization id into
the URL the way Python renders `None`. -/
theorem make_request_no_organization_fails_fast :
    ∀ (org : Option String) (method endpoint : String) (payload : Option JObj) (outcome : HttpOutcome),
      (truthy org = false →
        make_request org method endpoint payload outcome =
          (false, .err "NoOrganizationSelected" "Please select an organization first." none)) ∧
      (pl_make_request org method endpoint payload outcome).1 = true ∧
      buildUrl none endpoint = buildUrl (some "None") endpoint := by
  intro org method endpoint payload outcome
  refine ⟨?_, rfl, rfl⟩
  intro h
  simp [make_request, h]

/-- Claim C2 witness: the fail-fast branch at a concrete unset
organization. -/
theorem make_request_no_organization_fails_fast_witness :
    make_request none "POST" "records" (some [("hostname", .s "h")]) (.success (some [])) =
      (false, .err "NoOrganizationSelected" "Please select an organization first." none) :=
  (make_request_no_organization_fails_fast none "POST" "records"
    (some [("hostname", .s "h")]) (.success (some []))).1 rfl

/-- Claim C4: with the organization scope set, `make_request` (and the
identical classification in `ProjectLogic._make_request`) maps every
failing HTTP outcome to a structured record and returns it instead of
raising (the embedding is a total function): a non-2xx response to
`{error: HTTPError, details: raw body text, status_code}`, a connection
failure to `ConnectionError`, a timeout to `TimeoutError`, any other
requests-library failure to `RequestException`, and any other exception to
`UnexpectedError`, each carrying the stringified exception as details. -/
theorem make_request_error_classification :
    ∀ (org : Option String) (method endpoint : String) (payload : Option JObj),
      truthy org = true →
      (∀ status body,
        make_request org method endpoint payload (.httpError status body) =
          (true, .err "HTTPError" body (some status)) ∧
        pl_make_request org method endpoint payload (.httpError status body) =
          (true, .err "HTTPError" body (some status))) ∧
      (∀ msg,
        make_request org method endpoint payload (.connectionError msg) =
          (true, .err "ConnectionError" msg none) ∧
        pl_make_request org method endpoint payload (.connectionError msg) =
          (true, .err "ConnectionError" msg none)) ∧
      (∀ msg,
        make_request org method endpoint payload (.timeout msg) =
          (true, .err "TimeoutError" msg none) ∧
        pl_make_request org method endpoint payload (.timeout msg) =
          (true, .err "TimeoutError" msg none)) ∧
      (∀ msg,
        make_request org method endpoint payload (.requestException msg) =
          (true, .err "RequestException" msg none) ∧
        pl_make_request org method endpoint payload (.requestException msg) =
          (true, .err "RequestException" msg none)) ∧
      (∀ msg,
        make_request org method endpoint payload (.unexpected msg) =
          (true, .err "UnexpectedError" msg none) ∧
        pl_make_request org method endpoint payload (.unexpected msg) =
          (true, .err "UnexpectedError" msg none)) := by
  intro org method endpoint payload h
  refine ⟨fun status body => ⟨?_, rfl⟩, fun msg => ⟨?_, rfl⟩, fun msg => ⟨?_, rfl⟩,
    fun msg => ⟨?_, rfl⟩, fun msg => ⟨?_, rfl⟩⟩ <;>
    simp [make_request, h, classifyOutcome]

/-- Claim C4 witness: the HTTP-error classification at a concrete 404. -/
theorem make_request_error_classification_witness :
    make_request (some "o1") "DELETE" "profiles/p1" none (.httpError 404 "not found") =
      (true, .err "HTTPError" "not found" (some 404)) :=
  ((make_request_error_classification (some "o1") "DELETE" "profiles/p1" none rfl).1
    404 "not found").1

/-- Claim C6 counterexample: calling `set_api_key` with no argument and no
environment fallback moves the credential field from Set back to Unset on
a live instance, so the per-field transition system does admit a
Set→Unset transition. -/
theorem set_api_key_clears_set_credential :
    is_api_key_set demoState = true ∧
    is_api_key_set (set_api_key demoState none none) = false := by
  decide

/-- Claim C6 (amended): the organization and network fields transition
only Unset→Set or Set→Set under every operation (their setters, which
no-op on a falsy id, and `setup_application_parameters`), and `set_api_key`
never touches them; the credential field additionally admits Set→Unset,
exactly when `set_api_key` runs with a falsy argument and a falsy
environment fallback — after any `set_api_key` call the credential is set
iff one of the two sources was truthy. -/
theorem scope_field_transition_policy :
    (∀ (st : WrapperState) (id : String) (nm : Option String),
      is_organization_id_set st = true →
      is_organization_id_set (set_organization_id st id nm) = true) ∧
    (∀ (st : WrapperState) (id : String) (nm : Option String),
      is_network_id_set st = true →
      is_network_id_set (set_network_id st id nm) = true) ∧
    (∀ (st : WrapperState) (k env : Option String),
      (set_api_key st k env).organization_id = st.organization_id ∧
      (set_api_key st k env).network_id = st.network_id) ∧
    (∀ (st : WrapperState) (k env : Option String),
      is_api_key_set (set_api_key st k env) = (truthy k || truthy env)) ∧
    (∀ (st : WrapperState) (flags : ReqFlags) (params : SetupParams)
        (env : Option String) (cache : Option Bool),
      is_organization_id_set st = true →
      is_organization_id_set (setup_application_parameters st flags params env cache).2 = true) ∧
    (∀ (st : WrapperState) (flags : ReqFlags) (params : SetupParams)
        (env : Option String) (cache : Option Bool),
      is_network_id_set st = true →
      is_network_id_set (setup_application_parameters st flags params env cache).2 = true) := by
  refine ⟨set_organization_id_mono, set_network_id_mono,
    fun st k env => ⟨(set_api_key_frame st k env).1, (set_api_key_frame st k env).2.2.1⟩,
    ?_, ?_, ?_⟩
  · intro st k env
    unfold set_api_key is_api_key_set
    by_cases h1 : truthy k <;> by_cases h2 : truthy env <;>
      simp [h1, h2, truthy_none]
  · intro st flags params env cache h
    unfold setup_application_parameters
    by_cases hchk : check_required_parameter_order flags = true
    · rw [if_neg (by simp [hchk])]
      have h0 : is_organization_id_set (setupStoreFlags (setupCacheState st cache) flags) = true := by
        simpa [is_organization_id_set, setupStoreFlags, setupCacheState_org] using h
      have h1 : is_organization_id_set
          (setupApiStep (setupStoreFlags (setupCacheState st cache) flags) flags params env).2 = true := by
        simpa [is_organization_id_set, setupApiStep_org] using h0
      have h2 := setupOrgStep_org_mono
        (setupApiStep (setupStoreFlags (setupCacheState st cache) flags) flags params env).2 flags params h1
      by_cases hr1 : (setupApiStep (setupStoreFlags (setupCacheState st cache) flags) flags params env).1 = true
      · rw [if_neg (by simp [hr1])]
        by_cases hr2 : (setupOrgStep (setupApiStep (setupStoreFlags (setupCacheState st cache) flags) flags params env).2 flags params).1 = true
        · rw [if_neg (by simp [hr2])]
          have h3 : is_organization_id_set
              (setupNetStep (setupOrgStep (setupApiStep (setupStoreFlags (setupCacheState st cache) flags) flags params env).2 flags params).2 flags params).2 = true := by
            simpa [is_organization_id_set, setupNetStep_org] using h2
          by_cases hr3 : (setupNetStep (setupOrgStep (setupApiStep (setupStoreFlags (setupCacheState st cache) flags) flags params env).2 flags params).2 flags params).1 = true
          · rw [if_neg (by simp [hr3])]
            exact h3
          · rw [if_pos (by simp [hr3])]
            exact h3
        · rw [if_pos (by simp [hr2])]
          exact h2
      · rw [if_pos (by simp [hr1])]
        exact h1
    · rw [if_pos (by simp [hchk])]
      simpa [is_organization_id_set, setupCacheState_org] using h
  · intro st flags params env cache h
    unfold setup_application_parameters
    by_cases hchk : check_required_parameter_order flags = true
    · rw [if_neg (by simp [hchk])]
      have h0 : is_network_id_set (setupStoreFlags (setupCacheState st cache) flags) = true := by
        simpa [is_network_id_set, setupStoreFlags, setupCacheState_net] using h
      have h1 : is_network_id_set
          (setupApiStep (setupStoreFlags (setupCacheState st cache) flags) flags params env).2 = true := by
        simpa [is_network_id_set, setupApiStep_net] using h0
      have h2 : is_network_id_set
          (setupOrgStep (setupApiStep (setupStoreFlags (setupCacheState st cache) flags) flags params env).2 flags params).2 = true := by
        simpa [is_network_id_set, setupOrgStep_net] using h1
      have h3 := setupNetStep_net_mono
        (setupOrgStep (setupApiStep (setupStoreFlags (setupCacheState st cache) flags) flags params env).2 flags params).2 flags params h2
      by_cases hr1 : (setupApiStep (setupStoreFlags (setupCacheState st cache) flags) flags params env).1 = true
      · rw [if_neg (by simp [hr1])]
        by_cases hr2 : (setupOrgStep (setupApiStep (setupStoreFlags (setupCacheState st cache) flags) flags params env).2 flags params).1 = true
        · rw [if_neg (by simp [hr2])]
          by_cases hr3 : (setupNetStep (setupOrgStep (setupApiStep (setupStoreFlags (setupCacheState st cache) flags) flags params env).2 flags params).2 flags params).1 = true
          · rw [if_neg (by simp [hr3])]
            exact h3
          · rw [if_pos (by simp [hr3])]
            exact h3
        · rw [if_pos (by simp [hr2])]
          exact h2
      · rw [if_pos (by simp [hr1])]
        exact h1
    · rw [if_pos (by simp [hchk])]
      simpa [is_network_id_set, setupCacheState_net] using h

/-- Claim C6 amended witness: organization monotonicity applied at a
concrete set state, and the credential characterisation at both-falsy
sources. -/
theorem scope_field_transition_policy_witness :
    is_organization_id_set (set_organization_id demoState "o9" none) = true ∧
    is_api_key_set (set_api_key demoState none (some "")) = false := by
  constructor
  · exact scope_field_transition_policy.1 demoState "o9" none rfl
  · rw [scope_field_transition_policy.2.2.2.1 demoState none (some "")]
    decide

/-- Claim C10: `set_organization_id` with a non-empty id and no name
changes only the organization id — every other stored field, including the
previously stored organization name, keeps its value (so the stored
(id, name) pair can mix two selections); the same holds for
`set_network_id` with respect to the network name. -/
theorem set_id_keeps_other_fields :
    (∀ (st : WrapperState) (id : String), id ≠ "" →
      set_organization_id st id none = { st with organization_id := some id }) ∧
    (∀ (st : WrapperState) (id : String), id ≠ "" →
      set_network_id st id none = { st with network_id := some id }) := by
  constructor
  · intro st id h
    unfold set_organization_id
    rw [if_pos h, if_neg (by simp [truthy_none])]
  · intro st id h
    unfold set_network_id
    rw [if_pos h, if_neg (by simp [truthy_none])]

/-- Claim C10 witness: selecting organization "o2" by id only keeps the
old stored name "OrgOne", yielding a mixed (id, name) pair. -/
theorem set_id_keeps_other_fields_witness :
    set_organization_id demoState "o2" none = { demoState with organization_id := some "o2" } ∧
    (set_organization_id demoState "o2" none).organization_name = some "OrgOne" := by
  have h := set_id_keeps_other_fields.1 demoState "o2" (by decide)
  exact ⟨h, by rw [h]; rfl⟩

/-- Claim C3: the enriched profile listing resolves each assigned
profile's network name by looking the assignment's network id up in the
network list — on the spec's example (profile p1, assignment p1→n1,
network n1 named Net1) it yields network name "Net1"; every profile no
assignment references gets the "[unassigned]" sentinel for both network
id and network name; and a winning assignment whose network id is absent
from the network list yields network name "[unknown]" (the join is a total
function — no exception). -/
theorem list_profiles_join_spec :
    (list_profiles_rows [⟨"p1", "Profile One"⟩] [⟨"a1", "n1", "p1"⟩]
        [⟨"n1", "Net1", "appliance", "UTC", []⟩] =
      [⟨"p1", "Profile One", "n1", "Net1"⟩]) ∧
    (∀ (ps : List RawProfile) (as : List RawAssignment) (ns : List RawNetwork) (p : RawProfile),
      p ∈ ps → (∀ a ∈ as, a.profileId ≠ p.profileId) →
      ProfRow.mk p.profileId p.name "[unassigned]" "[unassigned]" ∈ list_profiles_rows ps as ns) ∧
    (∀ (ps : List RawProfile) (as : List RawAssignment) (ns : List RawNetwork)
        (p : RawProfile) (a : RawAssignment),
      p ∈ ps → lastValidAssignment as p.profileId = some a →
      (∀ n ∈ ns, n.id ≠ a.networkId) →
      ProfRow.mk p.profileId p.name a.networkId "[unknown]" ∈ list_profiles_rows ps as ns) := by
  refine ⟨rfl, ?_, ?_⟩
  · intro ps as ns p hp hnone
    rw [list_profiles_rows_spec]
    refine List.mem_map.mpr ⟨p, hp, ?_⟩
    rw [profRowFor, lastValidAssignment_eq_none as p.profileId hnone]
  · intro ps as ns p a hp hlast habsent
    rw [list_profiles_rows_spec]
    refine List.mem_map.mpr ⟨p, hp, ?_⟩
    rw [profRowFor, hlast]
    have hmiss : pyGetLast (ns.map (fun n => (n.id, n.name))) a.networkId = none := by
      refine pyGetLast_eq_none _ _ ?_
      intro pr hpr
      rcases List.mem_map.mp hpr with ⟨n, hn, rfl⟩
      exact habsent n hn
    simp [pyGetD, hmiss]

/-- Claim C3 witness: an unassigned profile gets the sentinels, and an
assignment pointing at a network missing from the list resolves to
"[unknown]". -/
theorem list_profiles_join_spec_witness :
    ProfRow.mk "p2" "Profile Two" "[unassigned]" "[unassigned]" ∈
      list_profiles_rows [⟨"p2", "Profile Two"⟩] []
        [⟨"n1", "Net1", "appliance", "UTC", []⟩] ∧
    ProfRow.mk "p3" "Profile Three" "nX" "[unknown]" ∈
      list_profiles_rows [⟨"p3", "Profile Three"⟩] [⟨"a1", "nX", "p3"⟩]
        [⟨"n1", "Net1", "appliance", "UTC", []⟩] := by
  constructor
  · exact list_profiles_join_spec.2.1 [⟨"p2", "Profile Two"⟩] []
      [⟨"n1", "Net1", "appliance", "UTC", []⟩] ⟨"p2", "Profile Two"⟩
      (by simp) (by simp)
  · exact list_profiles_join_spec.2.2 [⟨"p3", "Profile Three"⟩] [⟨"a1", "nX", "p3"⟩]
      [⟨"n1", "Net1", "appliance", "UTC", []⟩] ⟨"p3", "Profile Three"⟩ ⟨"a1", "nX", "p3"⟩
      (by simp) (by decide) (by decide)

/-- Claim C5: whenever `setup_application_parameters` returns `false`
because a required field failed to end up set (after the ordering check
passed), the state it leaves behind is exactly the state produced by the
last successful step — an api-key failure leaves organization and network
untouched, an organization failure leaves the state of the api-key step,
and a network failure leaves the state of the organization step: no field
set earlier in the run is rolled back. -/
theorem setup_application_parameters_no_rollback
    (st : WrapperState) (flags : ReqFlags) (params : SetupParams)
    (env : Option String) (cache : Option Bool)
    (hord : check_required_parameter_order flags = true) :
    ((setupApiStep (setupStoreFlags (setupCacheState st cache) flags) flags params env).1 = false →
      setup_application_parameters st flags params env cache =
        (false, (setupApiStep (setupStoreFlags (setupCacheState st cache) flags) flags params env).2) ∧
      (setupApiStep (setupStoreFlags (setupCacheState st cache) flags) flags params env).2.organization_id =
        (setupStoreFlags (setupCacheState st cache) flags).organization_id ∧
      (setupApiStep (setupStoreFlags (setupCacheState st cache) flags) flags params env).2.network_id =
        (setupStoreFlags (setupCacheState st cache) flags).network_id) ∧
    ((setupApiStep (setupStoreFlags (setupCacheState st cache) flags) flags params env).1 = true →
     (setupOrgStep (setupApiStep (setupStoreFlags (setupCacheState st cache) flags) flags params env).2 flags params).1 = false →
      setup_application_parameters st flags params env cache =
        (false, (setupApiStep (setupStoreFlags (setupCacheState st cache) flags) flags params env).2)) ∧
    ((setupApiStep (setupStoreFlags (setupCacheState st cache) flags) flags params env).1 = true →
     (setupOrgStep (setupApiStep (setupStoreFlags (setupCacheState st cache) flags) flags params env).2 flags params).1 = true →
     (setupNetStep (setupOrgStep (setupApiStep (setupStoreFlags (setupCacheState st cache) flags) flags params env).2 flags params).2 flags params).1 = false →
      setup_application_parameters st flags params env cache =
        (false, (setupOrgStep (setupApiStep (setupStoreFlags (setupCacheState st cache) flags) flags params env).2 flags params).2)) := by
  refine ⟨?_, ?_, ?_⟩
  · intro h1
    refine ⟨?_, setupApiStep_org _ flags params env, setupApiStep_net _ flags params env⟩
    unfold setup_application_parameters
    rw [if_neg (by simp [hord]), if_pos (by simp [h1])]
  · intro h1 h2
    unfold setup_application_parameters
    rw [if_neg (by simp [hord]), if_neg (by simp [h1]), if_pos (by simp [h2])]
    rw [setupOrgStep_fail_frame _ flags params h2]
  · intro h1 h2 h3
    unfold setup_application_parameters
    rw [if_neg (by simp [hord]), if_neg (by simp [h1]), if_neg (by simp [h2]),
      if_pos (by simp [h3])]
    rw [setupNetStep_fail_frame _ flags params h3]

/-- Claim C5 witness: a run requiring all three fields that supplies only
the key and the organization fails at the network step, keeping the
credential and organization values it already set. -/
theorem setup_application_parameters_no_rollback_witness :
    setup_application_parameters blankState ⟨true, true, true⟩
      ⟨some "k", some "o1", some "Org", none, none⟩ none none =
      (false, ⟨some "k", some "o1", some "Org", none, none, false, true, none, none,
        some ⟨true, true, true⟩⟩) := by
  have h := (setup_application_parameters_no_rollback blankState ⟨true, true, true⟩
    ⟨some "k", some "o1", some "Org", none, none⟩ none none (by decide)).2.2
    (by decide) (by decide) (by decide)
  rw [h]
  decide

/-- Claim C7 counterexample: on the empty-body no-content marker (a 2xx
response with no body), `create_profile` and `create_dns_record` evaluate
`response.get(...)` on Python `None` and raise `AttributeError` instead of
returning normally. -/
theorem create_ops_raise_on_no_content :
    create_profile DnsResult.noContent = Except.error "AttributeError" ∧
    create_dns_record DnsResult.noContent = Except.error "AttributeError" :=
  ⟨rfl, rfl⟩

/-- Claim C7 (amended): every Domain Operation passes the structured
error record up the call chain unchanged; the delete and assignment
operations return every REST-client result — the no-content marker
included — unchanged; the list operations return normally on every
possible combination of REST-client results (the no-content marker yields
the empty listing) and their catch-all boundary converts any exception
raised by their own logic to the `UnexpectedError` record; but
`create_profile` and `create_dns_record` assume a mapping body and raise
`AttributeError` on the no-content marker. -/
theorem domain_operations_error_propagation :
    (∀ (k d : String) (s : Option Nat),
      create_profile (.err k d s) = .ok (.err k d s) ∧
      create_dns_record (.err k d s) = .ok (.err k d s)) ∧
    (∀ r : DnsResult,
      delete_profile r = .ok r ∧
      delete_dns_record r = .ok r ∧
      assign_profile_to_network r = .ok r ∧
      remove_network_assignment r = .ok r) ∧
    (∀ body : JObj, ∃ v, create_profile (.ok body) = .ok v) ∧
    (∀ body : JObj, create_dns_record (.ok body) = .ok (.ok body)) ∧
    (create_profile .noContent = .error "AttributeError" ∧
      create_dns_record .noContent = .error "AttributeError") ∧
    (∀ (k d : String) (s : Option Nat),
      list_dns_records (.err k d s) = .ok (.err k d s)) ∧
    (list_dns_records .noContent = .ok (.rows []) ∧
      ∀ r : ItemsResult RawRecord, ∃ v, list_dns_records r = .ok v) ∧
    (∀ (e : ErrRec) (pr : ItemsResult RawProfile) (ar : ItemsResult RawAssignment),
      list_network_assignments (.err e) pr ar = .ok (.err e.kind e.details e.status)) ∧
    (∀ (ns : List RawNetwork) (k d : String) (s : Option Nat) (ar : ItemsResult RawAssignment),
      list_network_assignments (.data ns) (.err k d s) ar = .ok (.err k d s)) ∧
    (∀ (ns : List RawNetwork) (po : Option (List RawProfile)) (k d : String) (s : Option Nat),
      list_network_assignments (.data ns) (.obj po) (.err k d s) = .ok (.err k d s) ∧
      list_network_assignments (.data ns) .noContent (.err k d s) = .ok (.err k d s)) ∧
    (∀ (ns : List RawNetwork) (po : Option (List RawProfile)),
      list_network_assignments (.data ns) (.obj po) .noContent = .ok (.rows [])) ∧
    (∀ (nr : Fetched RawNetwork) (pr : ItemsResult RawProfile) (ar : ItemsResult RawAssignment),
      ∃ v, list_network_assignments nr pr ar = .ok v) ∧
    (∀ (k d : String) (s : Option Nat) (nr : Fetched RawNetwork)
        (apr : ItemsResult RawProfile) (ar : ItemsResult RawAssignment),
      list_profiles (.err k d s) nr apr ar = .ok (.err k d s)) ∧
    (∀ (nr : Fetched RawNetwork) (apr : ItemsResult RawProfile) (ar : ItemsResult RawAssignment),
      list_profiles .noContent nr apr ar = .ok (.rows [])) ∧
    (∀ (pd : List RawProfile) (e : ErrRec)
        (apr : ItemsResult RawProfile) (ar : ItemsResult RawAssignment),
      list_profiles (.obj (some pd)) (.err e) apr ar = .ok (.err e.kind e.details e.status)) ∧
    (∀ (pr : ItemsResult RawProfile) (nr : Fetched RawNetwork)
        (apr : ItemsResult RawProfile) (ar : ItemsResult RawAssignment),
      ∃ v, list_profiles pr nr apr ar = .ok v) ∧
    (∀ e : PyExn,
      pyTryOp (Except.error e : Except PyExn (OpResult ProfRow)) =
        .ok (.err "UnexpectedError" e none)) := by
  have hTry : ∀ {α : Type} (body : Except PyExn (OpResult α)), ∃ v, pyTryOp body = .ok v := by
    intro α body
    cases body with
    | ok v => exact ⟨v, rfl⟩
    | error e => exact ⟨.err "UnexpectedError" e none, rfl⟩
  refine ⟨fun k d s => ⟨rfl, rfl⟩, fun r => ⟨rfl, rfl, rfl, rfl⟩, ?_, ?_, ⟨rfl, rfl⟩,
    fun k d s => rfl, ⟨rfl, ?_⟩, fun e pr ar => rfl, fun ns k d s ar => rfl,
    fun ns po k d s => ⟨rfl, rfl⟩, fun ns po => rfl, fun nr pr ar => hTry _,
    fun k d s nr apr ar => rfl, fun nr apr ar => rfl, fun pd e apr ar => rfl,
    fun pr nr apr ar => hTry _, fun e => rfl⟩
  · intro body
    by_cases h : isErrorDict (DnsResult.ok body) = true
    · exact ⟨.ok body, by simp [create_profile, h]⟩
    · exact ⟨.ok [("Profile ID", jGet body "profileId"), ("Name", jGet body "name")],
        by simp [create_profile, h]⟩
  · intro body
    by_cases h : isErrorDict (DnsResult.ok body) = true <;> simp [create_dns_record, h]
  · intro r
    cases r with
    | err k d s => exact ⟨.err k d s, rfl⟩
    | noContent => exact ⟨.rows [], rfl⟩
    | obj items =>
        cases items with
        | none => exact ⟨.rows [], rfl⟩
        | some xs => exact ⟨_, rfl⟩

/-- Claim C8: when caching is enabled and a fetch fails (Meraki API error
or unexpected exception), the failing call returns the structured error
record and writes the empty list into the corresponding cache slot — the
single organizations slot, or the networks-map entry keyed by the
organization id — and a subsequent call with `use_cache = true` serves
that stored empty list without consulting the transport again. -/
theorem failed_fetch_negative_caching :
    (∀ (st : WrapperState) (uc : Bool) (f : Fetch RawOrg) (e : ErrRec),
      st.enable_caching = true → st.dashboard = true →
      st.organizations_cache = none → fetchErr f = some e →
      get_organizations st uc f = (.err e, { st with organizations_cache := some [] }) ∧
      ∀ f2 : Fetch RawOrg,
        get_organizations { st with organizations_cache := some [] } true f2 =
          (.data [], { st with organizations_cache := some [] })) ∧
    (∀ (st : WrapperState) (uc : Bool) (f : Fetch RawNetwork) (e : ErrRec) (oid : String),
      st.enable_caching = true → st.dashboard = true →
      oid ≠ "" → pyDictHas (st.networks_cache.getD []) oid = false →
      fetchErr f = some e →
      get_networks st (some oid) uc f =
        (.err e, { st with networks_cache := some (pyDictSet (st.networks_cache.getD []) oid []) }) ∧
      ∀ f2 : Fetch RawNetwork,
        get_networks { st with networks_cache := some (pyDictSet (st.networks_cache.getD []) oid []) }
            (some oid) true f2 =
          (.data [], { st with networks_cache := some (pyDictSet (st.networks_cache.getD []) oid []) })) := by
  constructor
  · intro st uc f e hc hd hcache herr
    have hdash : get_dashboard st = (some (), st) := by
      unfold get_dashboard
      rw [if_pos hd]
    have hfetch : get_organizations st uc f = get_organizations_fetch st f := by
      unfold get_organizations
      cases uc <;> simp [hc, hcache]
    constructor
    · rw [hfetch]
      unfold get_organizations_fetch
      rw [hdash]
      cases f with
      | ok xs => simp [fetchErr] at herr
      | apiError status msg =>
          simp [fetchErr] at herr
          simp [hc, ← herr]
      | exn msg =>
          simp [fetchErr] at herr
          simp [hc, ← herr]
    · intro f2
      unfold get_organizations
      simp [hc]
  · intro st uc f e oid hc hd hoid hnocache herr
    have htr : truthy (some oid) = true := by simpa [truthy] using hoid
    constructor
    · unfold get_networks
      rw [if_neg (by simp [htr])]
      rw [if_neg (by simp [hnocache])]
      unfold get_networks_fetch
      have hdash : get_dashboard { st with networks_cache := some (st.networks_cache.getD []) } =
          (some (), { st with networks_cache := some (st.networks_cache.getD []) }) := by
        unfold get_dashboard
        rw [if_pos (by simpa using hd)]
      rw [hdash]
      cases f with
      | ok xs => simp [fetchErr] at herr
      | apiError status msg =>
          simp [fetchErr] at herr
          simp [hc, ← herr]
      | exn msg =>
          simp [fetchErr] at herr
          simp [hc, ← herr]
    · intro f2
      unfold get_networks
      rw [if_neg (by simp [htr])]
      rw [if_pos (by simp [hc, pyDictHas_set_self])]
      have hval : pyGetD (pyDictSet (st.networks_cache.getD []) oid ([] : List RawNetwork)) oid [] = [] := by
        unfold pyGetD
        rw [pyGetLast_set]
        simp
      simp [hval]

/-- Claim C8 witness: a concrete failed organizations fetch on a
caching-enabled instance stores the empty list and the next cached read
serves it. -/
theorem failed_fetch_negative_caching_witness :
    get_organizations demoState false (.apiError 500 "server error") =
      (.err ⟨"MerakiAPIError", "server error", some 500⟩,
        { demoState with organizations_cache := some [] }) ∧
    get_organizations { demoState with organizations_cache := some [] } true (.ok [⟨"x", "X", "u", true, "m"⟩]) =
      (.data [], { demoState with organizations_cache := some [] }) := by
  have h := failed_fetch_negative_caching.1 demoState false (.apiError 500 "server error")
    ⟨"MerakiAPIError", "server error", some 500⟩ rfl rfl rfl rfl
  exact ⟨h.1, h.2 (.ok [⟨"x", "X", "u", true, "m"⟩])⟩

/-- Claim C9: with caching enabled and the first fetch succeeding, a
second `list_organizations` call with `use_cache = true` and no mutation
in between returns exactly the same display records (and leaves the state
unchanged), whatever the transport would have produced on the second
call — the cached raw list is served verbatim and formatted identically. -/
theorem list_organizations_cached_idempotent
    (st : WrapperState) (L : List RawOrg) (f2 : Fetch RawOrg)
    (hc : st.enable_caching = true) (hd : st.dashboard = true) :
    list_organizations (list_organizations st true (.ok L)).2 true f2 =
      list_organizations st true (.ok L) := by
  cases hcache : st.organizations_cache with
  | some C =>
      have h1 : ∀ f : Fetch RawOrg, get_organizations st true f = (.data C, st) := by
        intro f
        unfold get_organizations
        simp [hc, hcache]
      have hlist : ∀ f : Fetch RawOrg, list_organizations st true f =
          (.data (C.map (fun org => ⟨org.id, org.name, org.url, org.apiEnabled, org.licensingModel⟩)), st) := by
        intro f
        unfold list_organizations
        rw [h1 f]
      rw [hlist (.ok L), hlist f2]
  | none =>
      have h1 : get_organizations st true (.ok L) =
          (.data L, { st with organizations_cache := some L }) := by
        unfold get_organizations get_organizations_fetch get_dashboard
        simp [hc, hcache, hd]
      have hlist : list_organizations st true (.ok L) =
          (.data (L.map (fun org => ⟨org.id, org.name, org.url, org.apiEnabled, org.licensingModel⟩)),
            { st with organizations_cache := some L }) := by
        unfold list_organizations
        rw [h1]
      rw [hlist]
      have h2 : get_organizations { st with organizations_cache := some L } true f2 =
          (.data L, { st with organizations_cache := some L }) := by
        unfold get_organizations
        simp [hc]
      unfold list_organizations
      rw [h2]

/-- Claim C9 witness: the cached idempotent read at a concrete state,
first fetch succeeding, second transport outcome an error that is never
consulted. -/
theorem list_organizations_cached_idempotent_witness :
    list_organizations (list_organizations demoState true (.ok [⟨"o1", "OrgOne", "u", true, "per-device"⟩])).2
        true (.apiError 500 "boom") =
      list_organizations demoState true (.ok [⟨"o1", "OrgOne", "u", true, "per-device"⟩]) :=
  list_organizations_cached_idempotent demoState [⟨"o1", "OrgOne", "u", true, "per-device"⟩]
    (.apiError 500 "boom") rfl rfl

end Claims
